import Mathlib

/-!
Verification of the casperfpga `rfdc.py` yellow-block client (`src/src/rfdc.py`).

The class `RFDC` is a thin KATCP client: each accessor packages its arguments
into one (or, for two methods, two) `katcprequest` calls and parses the textual
payload of the first inform into a small result.  We embed, per accessor,

  * a `..._request` builder mirroring the `args`/`name` tuple handed to
    `t.katcprequest`, and
  * a `..._decode` function mirroring the parsing of
    `informs[0].arguments[0].decode()`,

over faithful models of the Python primitives the code uses: `str.split` with
the separators `' '`, `', '` and `': '`, the `int()` / `float()` coercions
(on the token shapes the protocol carries), dict insertion, list indexing
(raising `IndexError` out of range) and tuple unpacking (raising `ValueError`
on arity mismatch).  Exceptions are modelled with `Except`.
-/

/-- Python exception kinds raised (or documented) around the decoders.
`valueError` models the builtin `ValueError` raised both by a failing
`k, v = stat.split(' ')` unpacking and by a failing `int()` / `float()`
coercion; `indexError` models `IndexError` from `info[1]` on a too-short
list; `attributeError` models `AttributeError` from reading a never-assigned
instance attribute.  `malformedResponse` is modelled from the spec: the
spec's error taxonomy names a distinct `MalformedResponse` error kind, but
no such class exists anywhere in the source. -/
inductive PyExc where
  | valueError
  | indexError
  | attributeError
  | malformedResponse
  deriving DecidableEq, Repr

/-- Python scalar values as they occur in decoded mappings and request
argument tuples.  Float values are kept as their literal token (the client
never computes with them), so `float` carries the verbatim string. -/
inductive PyVal where
  | int (n : Int)
  | float (lit : String)
  | str (s : String)
  deriving DecidableEq, Repr

/-- A decoded Python dict, in insertion order. -/
abbrev Dict := List (String × PyVal)

instance decEqExcept {ε α : Type} [DecidableEq ε] [DecidableEq α] :
    DecidableEq (Except ε α) := fun x y =>
  match x, y with
  | .ok a, .ok b =>
    if h : a = b then isTrue (by rw [h]) else isFalse (by simp [h])
  | .error a, .error b =>
    if h : a = b then isTrue (by rw [h]) else isFalse (by simp [h])
  | .ok _, .error _ => isFalse (by simp)
  | .error _, .ok _ => isFalse (by simp)

/-- Python `str.split(' ')`: split on every single space, keeping empty
fields; `''.split(' ') == ['']`. -/
def splitSpaceChars : List Char → List (List Char)
  | [] => [[]]
  | ' ' :: rest => [] :: splitSpaceChars rest
  | c :: rest =>
    match splitSpaceChars rest with
    | [] => [[c]]
    | w :: ws => (c :: w) :: ws

/-- Python `str.split(', ')`: split on every (non-overlapping, leftmost)
occurrence of the two-character separator `', '`. -/
def splitCommaSpaceChars : List Char → List (List Char)
  | [] => [[]]
  | ',' :: ' ' :: rest => [] :: splitCommaSpaceChars rest
  | c :: rest =>
    match splitCommaSpaceChars rest with
    | [] => [[c]]
    | w :: ws => (c :: w) :: ws

/-- Python `str.split(': ')`, used by `status` on each inform. -/
def splitColonSpaceChars : List Char → List (List Char)
  | [] => [[]]
  | ':' :: ' ' :: rest => [] :: splitColonSpaceChars rest
  | c :: rest =>
    match splitColonSpaceChars rest with
    | [] => [[c]]
    | w :: ws => (c :: w) :: ws

def pySplitSpace (s : String) : List String :=
  (splitSpaceChars s.data).map List.asString

def pySplitCommaSpace (s : String) : List String :=
  (splitCommaSpaceChars s.data).map List.asString

def pySplitColonSpace (s : String) : List String :=
  (splitColonSpaceChars s.data).map List.asString

/-- Decimal value of a nonempty all-digit character list. -/
def digitsVal (cs : List Char) : Nat :=
  cs.foldl (fun n c => 10 * n + (c.toNat - 48)) 0

def allDigits (cs : List Char) : Bool :=
  !cs.isEmpty && cs.all Char.isDigit

/-- Python `int(token)` on the tokens this protocol carries: an optional
sign followed by decimal digits; anything else raises `ValueError`
(modelled as `none`).  Surrounding whitespace and underscore separators,
which `int()` would also accept, never occur in split tokens. -/
def pyInt (s : String) : Option Int :=
  match s.data with
  | '-' :: cs => if allDigits cs then some (-(digitsVal cs : Int)) else none
  | '+' :: cs => if allDigits cs then some (digitsVal cs : Int) else none
  | cs => if allDigits cs then some (digitsVal cs : Int) else none

/-- Acceptable unsigned bodies for `float(token)`: `digits`, `digits.digits`,
`digits.` or `.digits`. -/
def floatBody (cs : List Char) : Bool :=
  let intPart := cs.takeWhile Char.isDigit
  match cs.dropWhile Char.isDigit with
  | [] => !intPart.isEmpty
  | '.' :: frac => frac.all Char.isDigit && (!intPart.isEmpty || !frac.isEmpty)
  | _ => false

/-- Python `float(token)` success on the decimal tokens this protocol
carries (optional sign, digits with an optional fractional point); the
exponent / `inf` / `nan` forms `float()` would also accept never occur in
these payloads.  Failure raises `ValueError` (modelled as `false`). -/
def pyFloatOk (s : String) : Bool :=
  match s.data with
  | '-' :: cs => floatBody cs
  | '+' :: cs => floatBody cs
  | cs => floatBody cs

/-- Python `d[k] = v` on a dict: overwrite in place if the key is present,
append otherwise. -/
def dictSet {α : Type} (d : List (String × α)) (k : String) (v : α) :
    List (String × α) :=
  if d.any (fun p => p.1 = k) then
    d.map (fun p => if p.1 = k then (k, v) else p)
  else
    d ++ [(k, v)]

/-- Coercion applied per value token by a decoder: `int(v)`. -/
def coerceInt (v : String) : Except PyExc PyVal :=
  match pyInt v with
  | some n => .ok (.int n)
  | none => .error .valueError

/-- Coercion applied per value token by a decoder: `float(v)`. -/
def coerceFloat (v : String) : Except PyExc PyVal :=
  if pyFloatOk v then .ok (.float v) else .error .valueError

/-- No coercion: the value token is stored as the string itself. -/
def coerceStr (v : String) : Except PyExc PyVal := .ok (.str v)

/-- The loop `for stat in info: k, v = stat.split(' '); d[k] = coerce(v)`
shared (textually duplicated) by the source's dict-building accessors.
A split of arity other than two raises `ValueError` (tuple unpacking), a
failing coercion raises what the coercion raises. -/
def pairsGo (coerce : String → Except PyExc PyVal) (d : Dict) :
    List String → Except PyExc Dict
  | [] => .ok d
  | stat :: rest =>
    match pySplitSpace stat with
    | [k, v] =>
      match coerce v with
      | .ok pv => pairsGo coerce (dictSet d k pv) rest
      | .error e => .error e
    | _ => .error .valueError

/-! ## Converter kind and request construction -/

/-- `RFDC.ADC_TILE` from the source. -/
def ADC_TILE : Int := 0

/-- `RFDC.DAC_TILE` from the source. -/
def DAC_TILE : Int := 1

/-- The `converter_type` values seen at the accessors: the integer class
constants (`RFDC.ADC_TILE` / `RFDC.DAC_TILE`) or, as the docstrings
instruct, the strings `"adc"` / `"dac"`. -/
inductive ConvType where
  | int (n : Int)
  | str (s : String)
  deriving DecidableEq, Repr

/-- Python `converter_type == self.ADC_TILE`: integers compare by value,
a string never equals an integer. -/
def convEqInt (converter_type : ConvType) (n : Int) : Bool :=
  match converter_type with
  | .int m => m == n
  | .str _ => false

/-- The expression `"adc" if converter_type == self.ADC_TILE else "dac"`
that every converter-addressed accessor embeds into its request args. -/
def convKind (converter_type : ConvType) : String :=
  if convEqInt converter_type ADC_TILE then "adc" else "dac"

/-- One `t.katcprequest(name=..., request_args=...)` call. -/
structure Request where
  name : String
  args : List PyVal
  deriving DecidableEq, Repr

/-- Request sent by `get_fabric_clk_freq`. -/
def get_fabric_clk_freq_request (ntile : Int) (converter_type : ConvType) :
    Request :=
  { name := "rfdc-get-fab-clk-freq"
    args := [.int ntile, .str (convKind converter_type)] }

/-- Request sent by `get_datatype`. -/
def get_datatype_request (ntile nblk : Int) (converter_type : ConvType) :
    Request :=
  { name := "rfdc-get-datatype"
    args := [.int ntile, .int nblk, .str (convKind converter_type)] }

/-- Request sent by `get_coarse_delay`. -/
def get_coarse_delay_request (ntile nblk : Int) (converter_type : ConvType) :
    Request :=
  { name := "rfdc-get-coarse-delay"
    args := [.int ntile, .int nblk, .str (convKind converter_type)] }

/-- Request sent by `set_coarse_delay`: the source passes the literal
`name='rfdc-get-coarse-delay'` (not `rfdc-set-coarse-delay`) with the new
`coarse_delay` and `event_source` appended to the argument tuple. -/
def set_coarse_delay_request (ntile nblk : Int) (converter_type : ConvType)
    (coarse_delay event_source : Int) : Request :=
  { name := "rfdc-get-coarse-delay"
    args := [.int ntile, .int nblk, .str (convKind converter_type),
             .int coarse_delay, .int event_source] }

/-- Request sent by `get_pll_config`. -/
def get_pll_config_request (ntile : Int) (converter_type : ConvType) :
    Request :=
  { name := "rfdc-get-pll-config"
    args := [.int ntile, .str (convKind converter_type)] }

/-- Request sent by `get_dsa`. -/
def get_dsa_request (ntile nblk : Int) : Request :=
  { name := "rfdc-get-dsa", args := [.int ntile, .int nblk] }

/-- Requests issued by one `get_dsa` call: always exactly the one request. -/
def get_dsa_requests (ntile nblk : Int) : List Request :=
  [get_dsa_request ntile nblk]

/-- Request sent by `get_cal_coeffs`. -/
def get_cal_coeffs_request (ntile nblk calblk : Int) : Request :=
  { name := "rfdc-get-cal-coeffs", args := [.int ntile, .int nblk, .int calblk] }

/-- Requests issued by one `set_pll_config` call, as a function of the
informs the peer returns for the `rfdc-set-pll-config` request: the source
returns the empty dict immediately when `len(informs) > 0` (the disabled
case, the only time this request informs), and otherwise calls
`self.get_pll_config(ntile, converter_type)`, which issues a second
request. -/
def set_pll_config_requests (ntile : Int) (converter_type : ConvType)
    (clk_src : Int) (pll_ref_freq sample_rate : PyVal)
    (setInforms : List String) : List Request :=
  let setReq : Request :=
    { name := "rfdc-set-pll-config"
      args := [.int ntile, .str (convKind converter_type), .int clk_src,
               pll_ref_freq, sample_rate] }
  if setInforms.length > 0 then [setReq]
  else [setReq, get_pll_config_request ntile converter_type]

/-- Requests issued by one `set_cal_coeffs` call, as a function of the
informs the peer returns for the `rfdc-set-cal-coeffs` request: when
`len(informs) > 0` (disabled) the call stops after one request, otherwise
it issues a second `rfdc-get-cal-coeffs` readback request. -/
def set_cal_coeffs_requests (ntile nblk calblk : Int) (coeffs : List PyVal)
    (setInforms : List String) : List Request :=
  let setReq : Request :=
    { name := "rfdc-set-cal-coeffs"
      args := [.int ntile, .int nblk, .int calblk] ++ coeffs }
  if setInforms.length > 0 then [setReq]
  else [setReq, get_cal_coeffs_request ntile nblk calblk]

/-- Every string passed as `name=` to `t.katcprequest` anywhere in
`rfdc.py`, in source order. -/
def allRequestNames : List String :=
  ["rfdc-init", "dto", "delbof", "rfdc-progpll", "rfdc-status",
   "rfdc-get-fab-clk-freq", "rfdc-get-datatype", "rfdc-get-datawidth",
   "rfdc-get-nyquist-zone", "rfdc-set-nyquist-zone",
   "rfdc-get-coarse-delay", "rfdc-get-coarse-delay",
   "rfdc-get-qmc-settings", "rfdc-set-qmc-settings", "rfdc-update-event",
   "rfdc-get-pll-config", "rfdc-set-pll-config", "rfdc-pll-lock-status",
   "rfdc-get-clk-src", "rfdc-get-dsa", "rfdc-set-dsa",
   "rfdc-get-cal-freeze", "rfdc-set-cal-freeze", "rfdc-get-cal-coeffs",
   "rfdc-set-cal-coeffs", "rfdc-get-cal-coeffs", "rfdc-disable-user-coeffs",
   "rfdc-get-cal-mode", "rfdc-set-cal-mode", "rfdc-get-output-current",
   "rfdc-set-vop", "rfdc-get-invsincfir", "rfdc-set-invsincfir",
   "rfdc-invsincfir-enabled", "rfdc-get-imr-mode", "rfdc-set-imr-mode",
   "rfdc-run-mts", "rfdc-update-nco-mts", "rfdc-report-mixer"]

/-! ## Inform-payload decoders

Each `..._decode` takes `informs[0].arguments[0].decode()` (the payload of
the first inform) and mirrors the accessor's parsing of it. -/

/-- `get_coarse_delay` decoding: split on `', '`; a single field is the
`(disabled)` response and yields the empty dict; otherwise each
`k v` pair is inserted with `int(v)`. -/
def get_coarse_delay_decode (payload : String) : Except PyExc Dict :=
  let info := pySplitCommaSpace payload
  if info.length = 1 then .ok []
  else pairsGo coerceInt [] info

/-- `set_coarse_delay` decoding of the readback payload: identical split
and disabled handling, but the value is stored as the raw string
(`coarse_delay[k] = v`, no `int`). -/
def set_coarse_delay_decode (payload : String) : Except PyExc Dict :=
  let info := pySplitCommaSpace payload
  if info.length = 1 then .ok []
  else pairsGo coerceStr [] info

/-- `get_qmc_settings` decoding: comma-space split, length-one means
disabled (empty dict), values coerced with `float(v)`. -/
def get_qmc_settings_decode (payload : String) : Except PyExc Dict :=
  let info := pySplitCommaSpace payload
  if info.length = 1 then .ok []
  else pairsGo coerceFloat [] info

/-- `get_dsa` decoding: space split; length one is the disabled empty
dict; otherwise `{info[0]: info[1]}` with no coercion (extra fields are
ignored).  No exception can arise. -/
def get_dsa_decode (payload : String) : Dict :=
  match pySplitSpace payload with
  | [_] => []
  | k :: v :: _ => [(k, .str v)]
  | [] => []

/-- `set_dsa` decoding of the readback payload: same shape as
`get_dsa_decode`, written out separately in the source. -/
def set_dsa_decode (payload : String) : Dict :=
  match pySplitSpace payload with
  | [_] => []
  | k :: v :: _ => [(k, .str v)]
  | [] => []

/-- Python `info == "(disabled)"` where `info` is the list produced by
`split(' ')`: comparing a list against a string is always `False` in
Python, whatever the contents. -/
def pyListEqStr (_info : List String) (_s : String) : Bool := false

/-- `get_pll_lock_status` decoding:
`info = payload.split(' ')`, then `pll_lock_status = info[1]` (an
`IndexError` when the split has fewer than two fields — in particular on
the `(disabled)` payload), then the dead comparison
`if info == "(disabled)"` (list vs. string, never true), else
`int(pll_lock_status)`. -/
def get_pll_lock_status_decode (payload : String) :
    Except PyExc (Option Int) :=
  let info := pySplitSpace payload
  match info.get? 1 with
  | none => .error .indexError
  | some pll_lock_status =>
    if pyListEqStr info "(disabled)" then .ok none
    else
      match pyInt pll_lock_status with
      | some n => .ok (some n)
      | none => .error .valueError

/-- `get_clk_src` decoding: same shape as `get_pll_lock_status_decode`
(`clk_src = info[1]` before the dead list-vs-string disabled check). -/
def get_clk_src_decode (payload : String) : Except PyExc (Option Int) :=
  let info := pySplitSpace payload
  match info.get? 1 with
  | none => .error .indexError
  | some clk_src =>
    if pyListEqStr info "(disabled)" then .ok none
    else
      match pyInt clk_src with
      | some n => .ok (some n)
      | none => .error .valueError

/-- The per-tile decoding inside `status`: the text after `'TILE: '` is
split on `', '` and each `k v` pair is inserted with `int(v)`. -/
def status_stat_decode (stat : String) : Except PyExc Dict :=
  pairsGo coerceInt [] (pySplitCommaSpace stat)

/-- The loop of `status` over the informs: each inform is split on
`': '`; `info[0]` names the tile and `info[1]` carries the pair list
(`IndexError` when there is no `': '`). -/
def statusGo (acc : List (String × Dict)) :
    List String → Except PyExc (List (String × Dict))
  | [] => .ok acc
  | i :: rest =>
    match pySplitColonSpace i with
    | tile :: second :: _ =>
      match status_stat_decode second with
      | .ok d => statusGo (dictSet acc tile d) rest
      | .error e => .error e
    | _ => .error .indexError

/-- `status` decoding over the full inform list. -/
def status_decode (informs : List String) :
    Except PyExc (List (String × Dict)) :=
  statusGo [] informs

/-! ## Instance state: the MTS report -/

/-- The only mutable per-instance state any claim touches: the
`mts_report` attribute.  `none` models "the attribute was never
assigned" — `__init__` does not create it; reading it then raises
`AttributeError`. -/
structure RFDCState where
  mts_report : Option (List String)
  deriving DecidableEq, Repr

/-- The instance state `__init__` leaves behind: no `mts_report`
attribute is assigned anywhere in the constructor. -/
def initState : RFDCState := { mts_report := none }

/-- `run_mts`: assigns `self.mts_report = []`, issues the request, and
appends each returned inform in order; returns `True`. -/
def run_mts (s : RFDCState) (informs : List String) : RFDCState × Bool :=
  ({ s with mts_report := some (informs.foldl (fun acc i => acc ++ [i]) []) },
   true)

/-- Request sent by `run_mts`. -/
def run_mts_request (tile_mask : Int) : Request :=
  { name := "rfdc-run-mts", args := [.int tile_mask] }

/-- `get_mts_report`: reads `self.mts_report` (raising `AttributeError`
when `run_mts` has never assigned it) and prints each entry; the state is
not modified and `True` is returned. -/
def get_mts_report (s : RFDCState) : Except PyExc (RFDCState × Bool) :=
  match s.mts_report with
  | none => .error .attributeError
  | some _ => .ok (s, true)

/-! ## Relations used to compare decoders -/

/-- A pair stat-token is well formed for the float decoders: it splits on
`' '` into exactly a key and a value, and the value passes `float()`. -/
def floatPairOk (stat : String) : Bool :=
  match pySplitSpace stat with
  | [_, v] => pyFloatOk v
  | _ => false

/-- Lift a value relation to dict entries: equal keys, related values. -/
def valRel (R : PyVal → PyVal → Prop) (a b : String × PyVal) : Prop :=
  a.1 = b.1 ∧ R a.2 b.2

/-- The get-side value is the `int()` coercion of the set-side raw
string. -/
def strIntVal (gv sv : PyVal) : Prop :=
  ∃ s, sv = PyVal.str s ∧ coerceInt s = Except.ok gv

section Scratch
example : pySplitSpace "Enabled 1" = ["Enabled", "1"] := by decide
example : pySplitCommaSpace "Enabled 1, State 15, PLL 2" =
    ["Enabled 1", "State 15", "PLL 2"] := by decide
example : pySplitCommaSpace "(disabled)" = ["(disabled)"] := by decide
example : pySplitSpace "(disabled)" = ["(disabled)"] := by decide
example : pyInt "15" = some 15 := by decide
example : pyInt "x" = none := by decide
example : pyFloatOk "1.0" = true := by decide
example : pyFloatOk "x" = false := by decide
example : pairsGo coerceInt [] ["Enabled 1", "State 15"] =
    .ok [("Enabled", .int 1), ("State", .int 15)] := by decide
example : get_coarse_delay_decode "(disabled)" = .ok [] := by decide
example : get_coarse_delay_decode "CoarseDelay 3, EventSource 2" =
    .ok [("CoarseDelay", .int 3), ("EventSource", .int 2)] := by decide
example : set_coarse_delay_decode "CoarseDelay 3, EventSource 2" =
    .ok [("CoarseDelay", .str "3"), ("EventSource", .str "2")] := by decide
example : get_pll_lock_status_decode "PLL 2" = .ok (some 2) := by decide
example : get_dsa_decode "dsa 10" = [("dsa", .str "10")] := by decide
example : get_qmc_settings_decode "GainCorrectionFactor 0.9, PhaseCorrectionFactor -5.0" =
    .ok [("GainCorrectionFactor", .float "0.9"),
         ("PhaseCorrectionFactor", .float "-5.0")] := by decide
end Scratch

/-! ## Helper lemmas -/

theorem forall2_any_key {R : PyVal → PyVal → Prop} {d d' : Dict} (k : String)
    (h : List.Forall₂ (valRel R) d d') :
    (d.any fun p => p.1 = k) = (d'.any fun p => p.1 = k) := by
  induction h with
  | nil => rfl
  | cons hab htail ih => simp [List.any_cons, ih, hab.1]

theorem forall2_map_overwrite {R : PyVal → PyVal → Prop} {d d' : Dict}
    {v v' : PyVal} (k : String) (h : List.Forall₂ (valRel R) d d')
    (hv : R v v') :
    List.Forall₂ (valRel R)
      (d.map fun p => if p.1 = k then (k, v) else p)
      (d'.map fun p => if p.1 = k then (k, v') else p) := by
  induction h with
  | nil => constructor
  | cons hab htail ih =>
    rename_i a b l₁ l₂
    simp only [List.map_cons]
    refine List.Forall₂.cons ?_ ih
    by_cases hak : a.1 = k
    · have hbk : b.1 = k := hab.1 ▸ hak
      simp only [hak, hbk, if_true]
      exact ⟨rfl, hv⟩
    · have hbk : ¬b.1 = k := fun hbk => hak (hab.1.symm ▸ hbk)
      simp only [if_neg hak, if_neg hbk]
      exact hab

theorem forall2_dictSet {R : PyVal → PyVal → Prop} {d d' : Dict}
    {v v' : PyVal} (k : String) (h : List.Forall₂ (valRel R) d d')
    (hv : R v v') :
    List.Forall₂ (valRel R) (dictSet d k v) (dictSet d' k v') := by
  unfold dictSet
  rw [forall2_any_key k h]
  by_cases hk : (d'.any fun p => p.1 = k) = true
  · simp only [hk, if_true]
    exact forall2_map_overwrite k h hv
  · simp only [hk, if_false]
    exact List.rel_append h (List.Forall₂.cons ⟨rfl, hv⟩ List.Forall₂.nil)

theorem pairsGo_rel {c₁ c₂ : String → Except PyExc PyVal}
    {R : PyVal → PyVal → Prop}
    (hc : ∀ v pv, c₁ v = .ok pv → ∃ pv', c₂ v = .ok pv' ∧ R pv pv') :
    ∀ (xs : List String) (d d' g : Dict),
      List.Forall₂ (valRel R) d d' →
      pairsGo c₁ d xs = .ok g →
      ∃ g', pairsGo c₂ d' xs = .ok g' ∧ List.Forall₂ (valRel R) g g' := by
  intro xs
  induction xs with
  | nil =>
    intro d d' g hdd hok
    simp only [pairsGo] at hok
    cases hok
    exact ⟨d', rfl, hdd⟩
  | cons stat rest ih =>
    intro d d' g hdd hok
    simp only [pairsGo] at hok
    split at hok
    · rename_i k v heq
      split at hok
      · rename_i pv hcv
        obtain ⟨pv', hcv', hR⟩ := hc v pv hcv
        obtain ⟨g', hg', hrel⟩ :=
          ih (dictSet d k pv) (dictSet d' k pv') g
            (forall2_dictSet k hdd hR) hok
        refine ⟨g', ?_, hrel⟩
        simp only [pairsGo]
        rw [heq]
        show (match c₂ v with
              | .ok pv => pairsGo c₂ (dictSet d' k pv) rest
              | .error e => .error e) = .ok g'
        rw [hcv']
        exact hg'
      · simp at hok
    · simp at hok

theorem pairsGo_float_fails :
    ∀ (xs : List String) (d : Dict),
      (∃ stat ∈ xs, floatPairOk stat = false) →
      pairsGo coerceFloat d xs = .error PyExc.valueError := by
  intro xs
  induction xs with
  | nil =>
    rintro d ⟨stat, hmem, _⟩
    cases hmem
  | cons stat rest ih =>
    rintro d ⟨s, hmem, hbad⟩
    simp only [pairsGo]
    rcases List.mem_cons.mp hmem with heq | hmem'
    · subst heq
      unfold floatPairOk at hbad
      rcases hsplit : pySplitSpace s with _ | ⟨k, _ | ⟨v, _ | _⟩⟩
      all_goals rw [hsplit] at hbad
      have hfv : pyFloatOk v = false := hbad
      simp [coerceFloat, hfv]
    · rcases hsplit : pySplitSpace stat with _ | ⟨k, _ | ⟨v, _ | _⟩⟩
      all_goals try rfl
      rcases hfv : pyFloatOk v with _ | _
      · simp [coerceFloat, hfv]
      · simp only [coerceFloat, hfv, if_true]
        exact ih (dictSet d k (.float v)) ⟨s, hmem', hbad⟩

theorem foldl_append_singleton (l : List String) :
    ∀ acc : List String, l.foldl (fun a i => a ++ [i]) acc = acc ++ l := by
  induction l with
  | nil => intro acc; simp
  | cons x xs ih => intro acc; simp [List.foldl_cons, ih]

theorem convKind_eq_adc_iff (ct : ConvType) :
    convKind ct = "adc" ↔ ct = ConvType.int ADC_TILE := by
  cases ct with
  | int n =>
    unfold convKind convEqInt ADC_TILE
    by_cases hn : n = 0
    · simp [hn]
    · simp [hn]
  | str s =>
    unfold convKind convEqInt
    simp

/-! ## Claim theorems -/

/-- C1: the spec claims every target-addressed accessor returns the
disabled sentinel (None / empty mapping) without raising when the peer's
inform payload is `(disabled)`, in particular `get_pll_lock_status` and
`get_clk_src`.  The code contradicts this (and its own docstrings and its
own dead `return None` branch): both methods index `info[1]` before their
never-true list-vs-string disabled comparison, so the `(disabled)` payload
raises `IndexError`. -/
theorem c1_pll_lock_and_clk_src_raise_on_disabled :
    get_pll_lock_status_decode "(disabled)" = .error PyExc.indexError ∧
    get_clk_src_decode "(disabled)" = .error PyExc.indexError := by
  exact ⟨rfl, rfl⟩

/-- C2 counterexample: `set_pll_config` and `set_cal_coeffs` do not
perform exactly one transport request per call: on an enabled target (the
set request returns no informs) each issues a second readback request. -/
theorem c2_counterexample_two_requests :
    (set_pll_config_requests 0 (.int 0) 1 (.float "245.76") (.float "2457.6")
        []).length ≠ 1 ∧
    (set_cal_coeffs_requests 0 0 2 [.int 1, .int 2, .int 3, .int 4, .int 5,
        .int 6, .int 7, .int 8] []).length ≠ 1 := by
  exact ⟨by decide, by decide⟩

/-- C2 amended: every accessor issues one transport request per call
except `set_pll_config` and `set_cal_coeffs`, which issue exactly one
request when the target is disabled (the set request informs) and exactly
two — the set request followed by the corresponding get readback
request — otherwise; `get_dsa` is a representative single-request
accessor. -/
theorem c2_amended_request_counts (ntile nblk calblk clk_src : Int)
    (ct : ConvType) (fref fs : PyVal) (coeffs : List PyVal)
    (setInforms : List String) :
    (set_pll_config_requests ntile ct clk_src fref fs setInforms).length
        = (if setInforms.isEmpty then 2 else 1) ∧
    (set_pll_config_requests ntile ct clk_src fref fs setInforms).get? 1
        = (if setInforms.isEmpty then some (get_pll_config_request ntile ct)
           else none) ∧
    (set_cal_coeffs_requests ntile nblk calblk coeffs setInforms).length
        = (if setInforms.isEmpty then 2 else 1) ∧
    (set_cal_coeffs_requests ntile nblk calblk coeffs setInforms).get? 1
        = (if setInforms.isEmpty
           then some (get_cal_coeffs_request ntile nblk calblk)
           else none) ∧
    (get_dsa_requests ntile nblk).length = 1 := by
  cases setInforms with
  | nil =>
    refine ⟨?_, ?_, ?_, ?_, rfl⟩ <;>
      simp [set_pll_config_requests, set_cal_coeffs_requests]
  | cons i rest =>
    refine ⟨?_, ?_, ?_, ?_, rfl⟩ <;>
      simp [set_pll_config_requests, set_cal_coeffs_requests]

/-- C3 counterexample: `set_coarse_delay` does not decode the readback
payload identically to `get_coarse_delay`: on the same two-field payload
the get accessor coerces the values with `int()` while the set accessor
stores the raw strings. -/
theorem c3_counterexample_set_get_decode_differ :
    set_coarse_delay_decode "CoarseDelay 3, EventSource 2" ≠
    get_coarse_delay_decode "CoarseDelay 3, EventSource 2" := by
  decide

/-- C3 amended: `set_coarse_delay` decodes the readback payload with the
same comma-space split, the same length-one disabled check and the same
key extraction as `get_coarse_delay`, but stores each value as the raw
token where `get_coarse_delay` applies `int()`: whenever the get decoding
succeeds, the set decoding succeeds with the same keys in the same order
and with the string forms of the same values. -/
theorem c3_amended_set_get_decode_relation (payload : String) (dg : Dict)
    (hg : get_coarse_delay_decode payload = .ok dg) :
    ∃ ds, set_coarse_delay_decode payload = .ok ds ∧
      List.Forall₂ (valRel strIntVal) dg ds := by
  unfold get_coarse_delay_decode at hg
  unfold set_coarse_delay_decode
  by_cases hlen : (pySplitCommaSpace payload).length = 1
  · rw [if_pos hlen] at hg
    cases hg
    rw [if_pos hlen]
    exact ⟨[], rfl, List.Forall₂.nil⟩
  · rw [if_neg hlen] at hg
    rw [if_neg hlen]
    refine pairsGo_rel ?_ (pySplitCommaSpace payload) [] [] dg
      List.Forall₂.nil hg
    intro v pv hv
    refine ⟨.str v, rfl, v, rfl, ?_⟩
    exact hv

/-- C3 amended witness at a concrete enabled payload. -/
theorem c3_amended_witness :
    ∃ ds, set_coarse_delay_decode "CoarseDelay 3, EventSource 2" = .ok ds ∧
      List.Forall₂ (valRel strIntVal)
        [("CoarseDelay", .int 3), ("EventSource", .int 2)] ds :=
  c3_amended_set_get_decode_relation "CoarseDelay 3, EventSource 2"
    [("CoarseDelay", .int 3), ("EventSource", .int 2)] (by decide)

/-- C4: for the DSA set/get pair, if the peer echoes the written value in
the readback (the get payload equals the set readback payload), then the
mapping returned by `get_dsa` equals the mapping returned by `set_dsa` —
both decode a `key value` payload into the same single-entry string-valued
dict. -/
theorem c4_dsa_set_then_get_roundtrip (setPayload getPayload : String)
    (hecho : getPayload = setPayload) :
    get_dsa_decode getPayload = set_dsa_decode setPayload := by
  subst hecho
  rfl

/-- C4 witness at a concrete echoed payload. -/
theorem c4_dsa_roundtrip_witness :
    get_dsa_decode "dsa 10" = set_dsa_decode "dsa 10" :=
  c4_dsa_set_then_get_roundtrip "dsa 10" "dsa 10" rfl

/-- C5: the multi-field payload `"Enabled 1, State 15, PLL 2"` parses, by
the per-tile decoding of `status`, to the mapping
`{Enabled: 1, State: 15, PLL: 2}` with integer values; the full inform
`"ADC0: Enabled 1, State 15, PLL 2"` accordingly yields that mapping under
the `ADC0` key. -/
theorem c5_status_multifield_parse :
    status_stat_decode "Enabled 1, State 15, PLL 2"
        = .ok [("Enabled", .int 1), ("State", .int 15), ("PLL", .int 2)] ∧
    status_decode ["ADC0: Enabled 1, State 15, PLL 2"]
        = .ok [("ADC0",
            [("Enabled", .int 1), ("State", .int 15), ("PLL", .int 2)])] := by
  exact ⟨by decide, by decide⟩

/-- C6 counterexample: a malformed inform (a value failing the documented
numeric coercion) makes `get_qmc_settings` raise the builtin `ValueError`,
which is not a distinct `MalformedResponse` error kind — no such class
exists in the code. -/
theorem c6_counterexample_valueerror_not_malformedresponse :
    get_qmc_settings_decode "GainCorrectionFactor x, PhaseCorrectionFactor 1.0"
        = .error PyExc.valueError ∧
    PyExc.valueError ≠ PyExc.malformedResponse := by
  exact ⟨by decide, by decide⟩

/-- C6 amended: a malformed inform payload (one that is not the single
disabled field, and in which some pair has the wrong token count or a
value that fails the `float()` coercion) makes `get_qmc_settings` raise
the builtin `ValueError` — not a distinct `MalformedResponse` kind — and
the accessor consequently returns no (partially built) mapping. -/
theorem c6_amended_malformed_raises_valueerror (payload : String)
    (hmulti : (pySplitCommaSpace payload).length ≠ 1)
    (hbad : ∃ stat ∈ pySplitCommaSpace payload, floatPairOk stat = false) :
    get_qmc_settings_decode payload = .error PyExc.valueError := by
  unfold get_qmc_settings_decode
  rw [if_neg hmulti]
  exact pairsGo_float_fails (pySplitCommaSpace payload) [] hbad

/-- C6 amended witness at a concrete malformed payload. -/
theorem c6_amended_witness :
    get_qmc_settings_decode "GainCorrectionFactor x, PhaseCorrectionFactor 1.0"
        = .error PyExc.valueError :=
  c6_amended_malformed_raises_valueerror
    "GainCorrectionFactor x, PhaseCorrectionFactor 1.0"
    (by decide) (by decide)

/-- C7: `run_mts` sets the stored MTS report to exactly the ordered
inform sequence of that call's transport request, overwriting whatever was
stored, and returns `True`; `get_mts_report` leaves the state unchanged. -/
theorem c7_mts_report_overwrite (s : RFDCState) (informs : List String) :
    (run_mts s informs).1.mts_report = some informs ∧
    (run_mts s informs).2 = true ∧
    ∀ r, get_mts_report s = .ok r → r.1 = s := by
  refine ⟨?_, rfl, ?_⟩
  · unfold run_mts
    simp [foldl_append_singleton]
  · intro r hget
    unfold get_mts_report at hget
    cases hs : s.mts_report with
    | none => rw [hs] at hget; cases hget
    | some l => rw [hs] at hget; cases hget; rfl

/-- C7 witness: a concrete overwrite and a concrete unchanged read. -/
theorem c7_mts_report_witness :
    (run_mts { mts_report := some ["old"] } ["a", "b"]).1.mts_report
        = some ["a", "b"] ∧
    (({ mts_report := some ["a"] } : RFDCState), true).1
        = ({ mts_report := some ["a"] } : RFDCState) :=
  ⟨(c7_mts_report_overwrite { mts_report := some ["old"] } ["a", "b"]).1,
   (c7_mts_report_overwrite { mts_report := some ["a"] } []).2.2
     ({ mts_report := some ["a"] }, true) rfl⟩

/-- C8: the converter-kind string placed in the request args is `"adc"`
exactly when `converter_type` is the integer constant `ADC_TILE` (0) and
`"dac"` for every other value; in particular passing the string `"adc"`,
as the docstrings instruct, sends `"dac"`. -/
theorem c8_conv_kind_string (ntile nblk : Int) (ct : ConvType) :
    ((get_fabric_clk_freq_request ntile ct).args
        = [PyVal.int ntile, PyVal.str "adc"] ↔ ct = ConvType.int ADC_TILE) ∧
    ((get_datatype_request ntile nblk ct).args
        = [PyVal.int ntile, PyVal.int nblk, PyVal.str "adc"]
      ↔ ct = ConvType.int ADC_TILE) ∧
    (get_datatype_request ntile nblk (ConvType.str "adc")).args
        = [PyVal.int ntile, PyVal.int nblk, PyVal.str "dac"] := by
  have hk := convKind_eq_adc_iff ct
  refine ⟨?_, ?_, rfl⟩
  · simpa [get_fabric_clk_freq_request] using hk
  · simpa [get_datatype_request] using hk

/-- C8 witness: the docstring-instructed string argument sends "dac". -/
theorem c8_conv_kind_witness :
    (get_datatype_request 0 0 (ConvType.str "adc")).args
        = [PyVal.int 0, PyVal.int 0, PyVal.str "dac"] :=
  (c8_conv_kind_string 0 0 (ConvType.str "adc")).2.2

/-- C9: `__init__` never assigns the `mts_report` attribute, so calling
`get_mts_report` before any `run_mts` on the instance raises
`AttributeError`. -/
theorem c9_get_mts_report_before_run :
    initState.mts_report = none ∧
    get_mts_report initState = .error PyExc.attributeError :=
  ⟨rfl, rfl⟩

/-- C10: `set_coarse_delay` issues its request under the remote operation
name `rfdc-get-coarse-delay` — the same name `get_coarse_delay` uses —
with the new `coarse_delay` and `event_source` appended to the get
request's arguments, and no request named `rfdc-set-coarse-delay` appears
anywhere in the client. -/
theorem c10_set_coarse_delay_request_name (ntile nblk : Int) (ct : ConvType)
    (coarse_delay event_source : Int) :
    (set_coarse_delay_request ntile nblk ct coarse_delay event_source).name
        = "rfdc-get-coarse-delay" ∧
    (set_coarse_delay_request ntile nblk ct coarse_delay event_source).name
        = (get_coarse_delay_request ntile nblk ct).name ∧
    (set_coarse_delay_request ntile nblk ct coarse_delay event_source).args
        = (get_coarse_delay_request ntile nblk ct).args
            ++ [PyVal.int coarse_delay, PyVal.int event_source] ∧
    "rfdc-set-coarse-delay" ∉ allRequestNames :=
  ⟨rfl, rfl, rfl, by decide⟩
